import Mathlib

/-!
# RiggerBackend payment/billing subsystem — verification development

Shallow embedding of the billing pipeline of the RiggerBackend repository:

* `BillingService.calculatePlatformFees`, `BillingService.processRecruitmentFee`,
  `BillingService.updateWorkerEarnings`    (src/services/payment/BillingService.js)
* `PaymentAutomationService.processJobCompletionPayment`, the subscription-renewal
  transaction builder                      (src/AutomationServer/Services/PaymentAutomation/PaymentService.js)
* `trackNGOContribution`                   (src/services/payment/StripeService.js)
* `NGOTransparencyService.generateTransparencyReport`, `calculateQuarterlyBreakdown`,
  `validateContributions`                  (src/services/payment/NGOTransparencyService.js)
* the Mongoose schemas                     (src/models/payment/PaymentModels.js)

Monetary values are embedded as rationals (`ℚ`); the JavaScript source computes
with decimal literals (0.03, 0.005, …) which are translated to the exact
rationals 3/100, 5/1000, …  JavaScript truthiness matters in two places and is
modelled explicitly:

* `feeStructure[transactionType] || 0.03` — a stored rate of `0.0` is falsy in
  JavaScript, so the `|| 0.03` fallback replaces it;
* `if (jobPayment.hours)` — an absent or zero hours value skips the block.

Mongoose `save()` validation is modelled for the one schema constraint the
claims depend on: `ngoTransparencySchema.contribution.sourceType` has
`enum: ['job_payment', 'subscription', 'platform_fee']`, so saving a record
with any other source type fails; the `try/catch` in `trackNGOContribution`
turns that failure into a `{ success: false }` result.
-/

namespace RiggerBackend

/-- Transaction kinds, from `paymentTransactionSchema.type.enum`. -/
inductive TransactionType
  | job_payment
  | subscription
  | recruitment_fee
  | platform_fee
  | refund
  | chargeback
deriving DecidableEq, Repr

/-- Result of `BillingService.calculatePlatformFees`. -/
structure FeeCalc where
  platformFee : ℚ
  ngoContribution : ℚ
  totalFees : ℚ
  netAmount : ℚ
deriving DecidableEq, Repr

/-- The `feeStructure` object literal inside `calculatePlatformFees`:
property lookup yields `none` for a kind that is not a key. -/
def feeStructure : TransactionType → Option ℚ
  | .job_payment => some (3 / 100)
  | .recruitment_fee => some (5 / 100)
  | .subscription => some 0
  | .platform_fee => some 0
  | _ => none

/-- JavaScript `x || d` on an optional number: an absent value *and* a stored
value of `0` are both falsy, so either falls through to the default. -/
def jsOrDefault (x : Option ℚ) (d : ℚ) : ℚ :=
  match x with
  | none => d
  | some v => if v = 0 then d else v

/-- `BillingService.calculatePlatformFees(amount, transactionType)`
(src/services/payment/BillingService.js lines 210–228).
`feePercentage = feeStructure[transactionType] || 0.03`. -/
def calculatePlatformFees (amount : ℚ) (transactionType : TransactionType) : FeeCalc :=
  let feePercentage := jsOrDefault (feeStructure transactionType) (3 / 100)
  let platformFee := amount * feePercentage
  let ngoContribution := amount * (5 / 1000)
  { platformFee := platformFee
    ngoContribution := ngoContribution
    totalFees := platformFee + ngoContribution
    netAmount := amount - platformFee - ngoContribution }

/-! ## Transaction model (`paymentTransactionSchema`) -/

/-- `fees` sub-document of a payment transaction; the schema default
(`platform: 0, processor: 0, total: 0`) applies when the constructor call
omits the field. -/
structure Fees where
  platform : ℚ := 0
  processor : ℚ := 0
  total : ℚ := 0
deriving DecidableEq, Repr

/-- `chaseWhiteRabbitNGO` sub-document of a payment transaction. -/
structure NGOFields where
  donationPercentage : ℚ := 5 / 1000
  donationAmount : ℚ := 0
  transparencyTracked : Bool := true
deriving DecidableEq, Repr

/-- `participants` sub-document: payer is required, payee optional. -/
structure Participants where
  payer : String
  payee : Option String := none
deriving DecidableEq, Repr

/-- Transaction lifecycle status; schema default is `pending`. -/
inductive TxStatus
  | pending | processing | completed | failed | cancelled | refunded
deriving DecidableEq, Repr

/-- A persisted `PaymentTransaction` document, restricted to the fields the
billing pipeline writes and the claims read. -/
structure PaymentTransaction where
  transactionId : String
  type : TransactionType
  status : TxStatus := .pending
  amount : ℚ
  netAmount : ℚ
  fees : Fees := {}
  participants : Participants
  chaseWhiteRabbitNGO : NGOFields := {}
  createdAt : ℤ
deriving DecidableEq, Repr

/-! ## NGO transparency ledger model (`ngoTransparencySchema`) -/

/-- `period` sub-document of an NGO transparency record. -/
structure Period where
  year : ℕ
  month : ℕ
  quarter : ℕ
deriving DecidableEq, Repr

/-- `contribution` sub-document of an NGO transparency record. -/
structure ContributionFields where
  amount : ℚ
  percentage : ℚ
  sourceType : TransactionType
deriving DecidableEq, Repr

/-- `allocation` sub-document of an NGO transparency record. -/
structure Allocation where
  workerSafety : ℚ := 4 / 10
  trainingPrograms : ℚ := 3 / 10
  communitySupport : ℚ := 2 / 10
  operations : ℚ := 1 / 10
deriving DecidableEq, Repr

/-- A persisted `NGOTransparency` document. -/
structure NGOTransparency where
  transactionId : String
  period : Period
  contribution : ContributionFields
  allocation : Allocation := {}
  createdAt : ℤ
deriving DecidableEq, Repr

/-- `ngoTransparencySchema.contribution.sourceType` has
`enum: ['job_payment', 'subscription', 'platform_fee']`
(src/models/payment/PaymentModels.js lines 357–361): `recruitment_fee` is
*not* an allowed value, so Mongoose validation rejects it at `save()` time. -/
def ngoSourceTypeAllowed : TransactionType → Bool
  | .job_payment => true
  | .subscription => true
  | .platform_fee => true
  | _ => false

/-- The wall-clock instant a pipeline runs at: `new Date()` decomposed into
the pieces the source reads (`getFullYear()`, `getMonth() + 1`, a linear
timestamp for `createdAt` range queries). -/
structure Clock where
  year : ℕ
  month : ℕ
  time : ℤ
deriving DecidableEq, Repr

/-- Generic `{ success, error }` result shape returned by the services. -/
structure JsResult where
  success : Bool
  error : Option String := none
deriving DecidableEq, Repr

/-- `trackNGOContribution(amount, type, transactionId)`
(src/services/payment/StripeService.js lines 59–90): builds an
`NGOTransparency` record with `amount * 0.005`, period taken from the current
date (`quarter = Math.floor((getMonth() + 3) / 3)`), and saves it.  A schema
validation failure is caught and reported as `{ success: false }`; on success
the record is appended to the ledger. -/
def trackNGOContribution (amount : ℚ) (type : TransactionType) (transactionId : String)
    (now : Clock) (ledger : List NGOTransparency) : JsResult × List NGOTransparency :=
  let contributionAmount := amount * (5 / 1000)
  let ngoRecord : NGOTransparency :=
    { transactionId := transactionId
      period :=
        { year := now.year
          month := now.month
          quarter := (now.month - 1 + 3) / 3 }
      contribution :=
        { amount := contributionAmount
          percentage := 5 / 10
          sourceType := type }
      allocation := {}
      createdAt := now.time }
  if ngoSourceTypeAllowed type then
    ({ success := true }, ledger ++ [ngoRecord])
  else
    ({ success := false, error := some "NGOTransparency validation failed" }, ledger)

/-! ## Earnings aggregator (`earningSummarySchema`, `updateWorkerEarnings`) -/

/-- `summary` sub-document of an earning summary, with the schema defaults. -/
structure EarningTotals where
  totalEarnings : ℚ := 0
  totalJobs : ℚ := 0
  averageJobValue : ℚ := 0
  totalHours : ℚ := 0
  averageHourlyRate : ℚ := 0
deriving DecidableEq, Repr

/-- One entry of the `monthly` array of an earning summary. -/
structure MonthlyRecord where
  year : ℕ
  month : ℕ
  earnings : ℚ
  jobs : ℚ
  hours : ℚ
  lastUpdated : ℤ
deriving DecidableEq, Repr

/-- One entry of the `yearly` array of an earning summary. -/
structure YearlyRecord where
  year : ℕ
  earnings : ℚ
  jobs : ℚ
  hours : ℚ
  lastUpdated : ℤ
deriving DecidableEq, Repr

/-- A persisted `EarningSummary` document. -/
structure EarningSummary where
  workerId : String
  summary : EarningTotals := {}
  monthly : List MonthlyRecord := []
  yearly : List YearlyRecord := []
deriving DecidableEq, Repr

/-- The `jobPayment` argument of `updateWorkerEarnings`:
`{ amount, hours }` where `hours` may be absent. -/
structure JobPayment where
  amount : ℚ
  hours : Option ℚ := none
deriving DecidableEq, Repr

/-- JavaScript truthiness of `jobPayment.hours`: absent or zero is falsy. -/
def jsTruthy : Option ℚ → Bool
  | none => false
  | some v => v != 0

/-- `earningSummary.monthly.find(m => m.year === y && m.month === mo)` followed
by push-if-missing and in-place mutation of the found record
(src/services/payment/BillingService.js lines 149–158): the first matching
record is updated, or a fresh zero record is appended and updated. -/
def updateMonthly (f : MonthlyRecord → MonthlyRecord) (y mo : ℕ) (now : ℤ) :
    List MonthlyRecord → List MonthlyRecord
  | [] => [f { year := y, month := mo, earnings := 0, jobs := 0, hours := 0, lastUpdated := now }]
  | r :: rs =>
    if r.year = y ∧ r.month = mo then f r :: rs
    else r :: updateMonthly f y mo now rs

/-- Same find-or-push-then-mutate pattern for the `yearly` array
(src/services/payment/BillingService.js lines 161–170). -/
def updateYearly (f : YearlyRecord → YearlyRecord) (y : ℕ) (now : ℤ) :
    List YearlyRecord → List YearlyRecord
  | [] => [f { year := y, earnings := 0, jobs := 0, hours := 0, lastUpdated := now }]
  | r :: rs =>
    if r.year = y then f r :: rs
    else r :: updateYearly f y now rs

/-- The in-memory mutation phase of `BillingService.updateWorkerEarnings`
(src/services/payment/BillingService.js lines 135–170), applied to the summary
obtained from the store (or freshly constructed): add the payment to the
running totals, recompute the derived averages, and upsert the
(currentYear, currentMonth) monthly bucket and the currentYear yearly bucket. -/
def applyEarnings (jobPayment : JobPayment) (now : Clock) (s : EarningSummary) :
    EarningSummary :=
  let totalEarnings := s.summary.totalEarnings + jobPayment.amount
  let totalJobs := s.summary.totalJobs + 1
  let withHours :=
    if jsTruthy jobPayment.hours then
      let totalHours := s.summary.totalHours + jobPayment.hours.getD 0
      { s.summary with
          totalEarnings := totalEarnings
          totalJobs := totalJobs
          averageJobValue := totalEarnings / totalJobs
          totalHours := totalHours
          averageHourlyRate := totalEarnings / totalHours }
    else
      { s.summary with
          totalEarnings := totalEarnings
          totalJobs := totalJobs
          averageJobValue := totalEarnings / totalJobs }
  let bumpMonthly : MonthlyRecord → MonthlyRecord := fun m =>
    { m with
        earnings := m.earnings + jobPayment.amount
        jobs := m.jobs + 1
        hours := if jsTruthy jobPayment.hours then m.hours + jobPayment.hours.getD 0 else m.hours
        lastUpdated := now.time }
  let bumpYearly : YearlyRecord → YearlyRecord := fun y =>
    { y with
        earnings := y.earnings + jobPayment.amount
        jobs := y.jobs + 1
        hours := if jsTruthy jobPayment.hours then y.hours + jobPayment.hours.getD 0 else y.hours
        lastUpdated := now.time }
  { s with
      summary := withHours
      monthly := updateMonthly bumpMonthly now.year now.month now.time s.monthly
      yearly := updateYearly bumpYearly now.year now.time s.yearly }

/-- `EarningSummary.findOne({ workerId })` over the store, or the
`new EarningSummary({ workerId })` fallback
(src/services/payment/BillingService.js lines 129–133). -/
def findOrCreateSummary (workerId : String) (store : List EarningSummary) : EarningSummary :=
  match store.find? (fun s => s.workerId = workerId) with
  | some s => s
  | none => { workerId := workerId }

/-- `earningSummary.save()`: replace the worker's document, or insert it if
the store has none. -/
def saveSummary (s : EarningSummary) : List EarningSummary → List EarningSummary
  | [] => [s]
  | t :: ts => if t.workerId = s.workerId then s :: ts else t :: saveSummary s ts

/-- `BillingService.updateWorkerEarnings(workerId, jobPayment)`
(src/services/payment/BillingService.js lines 127–177): a read-modify-write —
`findOne`, in-memory mutation, `save()`.  There is no atomic increment and no
optimistic-concurrency guard in the source. -/
def updateWorkerEarnings (workerId : String) (jobPayment : JobPayment) (now : Clock)
    (store : List EarningSummary) : JsResult × List EarningSummary :=
  let earningSummary := findOrCreateSummary workerId store
  let updated := applyEarnings jobPayment now earningSummary
  ({ success := true }, saveSummary updated store)

/-! ## Billing use cases -/

/-- The transaction object literal built by `BillingService.processRecruitmentFee`
(src/services/payment/BillingService.js lines 13–33).  The platform fee is
hard-coded `recruitmentAmount * 0.03` with the comment "3% platform fee";
`fees.total` is `platformFee` alone, the NGO contribution is carried only in
`chaseWhiteRabbitNGO.donationAmount`. -/
def recruitmentTransaction (clientId : String) (recruitmentAmount : ℚ)
    (txId : String) (now : Clock) : PaymentTransaction :=
  let platformFee := recruitmentAmount * (3 / 100)
  let ngoContribution := recruitmentAmount * (5 / 1000)
  let netAmount := recruitmentAmount - platformFee - ngoContribution
  { transactionId := txId
    type := .recruitment_fee
    amount := recruitmentAmount
    netAmount := netAmount
    fees :=
      { platform := platformFee
        processor := 0
        total := platformFee }
    participants := { payer := clientId, payee := none }
    chaseWhiteRabbitNGO :=
      { donationPercentage := 5 / 1000
        donationAmount := ngoContribution
        transparencyTracked := true }
    createdAt := now.time }

/-- Result shape of `processRecruitmentFee`. -/
structure RecruitmentResult where
  success : Bool
  transaction : Option PaymentTransaction := none
  error : Option String := none
deriving DecidableEq, Repr

/-- The `paymentDetails` object written onto the job by
`processJobCompletionPayment` (PaymentService.js lines 61–68). -/
structure JobPaymentDetails where
  transactionId : String
  amount : ℚ
  netAmount : ℚ
  platformFee : ℚ
  ngoContribution : ℚ
  processedAt : ℤ
deriving DecidableEq, Repr

/-- A `Job` document, restricted to the fields `processJobCompletionPayment`
reads and writes (the Job schema itself lives outside the billing sources;
its shape here is exactly the usage in PaymentService.js: `job.status`,
`job.paymentStatus`, `job.completionDetails?.actualHours`,
`job.duration.estimatedHours`, `job.hourlyRate`, `job.assignedTo`,
`job.postedBy`, `job.paymentDetails`).  Status fields are kept as strings
because the source compares them to string literals. -/
structure Job where
  id : String
  status : String
  paymentStatus : String
  hourlyRate : ℚ
  estimatedHours : ℚ
  actualHours : Option ℚ := none
  assignedTo : String
  postedBy : String
  paymentDetails : Option JobPaymentDetails := none
deriving DecidableEq, Repr

/-- The persistent stores the billing pipelines touch. -/
structure BillingState where
  jobs : List Job := []
  transactions : List PaymentTransaction := []
  ngoLedger : List NGOTransparency := []
  earnings : List EarningSummary := []
deriving DecidableEq, Repr

/-- `BillingService.processRecruitmentFee(clientId, jobId, recruitmentAmount,
paymentMethodId)` (src/services/payment/BillingService.js lines 7–44):
build the transaction, `save()` it, call `trackNGOContribution(amount,
'recruitment_fee', transaction._id)` *without inspecting its result*, and
return `{ success: true, transaction }`. -/
def processRecruitmentFee (clientId : String) (recruitmentAmount : ℚ)
    (txId : String) (now : Clock) (st : BillingState) :
    RecruitmentResult × BillingState :=
  let transaction := recruitmentTransaction clientId recruitmentAmount txId now
  let st1 := { st with transactions := st.transactions ++ [transaction] }
  let (_ngoResult, ledger) :=
    trackNGOContribution recruitmentAmount .recruitment_fee txId now st1.ngoLedger
  let st2 := { st1 with ngoLedger := ledger }
  ({ success := true, transaction := some transaction }, st2)

/-- The transaction object literal built by
`PaymentAutomationService.processSubscriptionRenewal`
(src/AutomationServer/Services/PaymentAutomation/PaymentService.js lines
143–161): no `fees` field (the schema defaults apply), `netAmount` is
`amount * 0.995`, and the donation sub-record carries `amount * 0.005`. -/
def subscriptionRenewalTransaction (userId : String) (amount : ℚ)
    (txId : String) (now : Clock) : PaymentTransaction :=
  { transactionId := txId
    type := .subscription
    amount := amount
    netAmount := amount * (995 / 1000)
    participants := { payer := userId, payee := none }
    chaseWhiteRabbitNGO :=
      { donationPercentage := 5 / 1000
        donationAmount := amount * (5 / 1000)
        transparencyTracked := true }
    createdAt := now.time }

/-- Result shape of `processJobCompletionPayment`. -/
structure JobCompletionResult where
  success : Bool
  transaction : Option PaymentTransaction := none
  jobUpdated : Option Job := none
  error : Option String := none
deriving DecidableEq, Repr

/-- `Job.findById(jobId)` over the job store. -/
def findJob (jobId : String) (jobs : List Job) : Option Job :=
  jobs.find? (fun j => j.id = jobId)

/-- `job.save()`: replace the job document with the same id. -/
def saveJob (j : Job) : List Job → List Job
  | [] => [j]
  | k :: ks => if k.id = j.id then j :: ks else k :: saveJob j ks

/-- The transaction object literal built by
`PaymentAutomationService.processJobCompletionPayment`
(src/AutomationServer/Services/PaymentAutomation/PaymentService.js lines
27–55): `fees.total` is `platformFees.totalFees`, which by
`calculatePlatformFees` already contains the NGO contribution; the donation
amount is additionally carried in `chaseWhiteRabbitNGO.donationAmount`. -/
def jobPaymentTransaction (payerId payeeId : String) (paymentAmount : ℚ)
    (txId : String) (now : Clock) : PaymentTransaction :=
  let platformFees := calculatePlatformFees paymentAmount .job_payment
  { transactionId := txId
    type := .job_payment
    amount := paymentAmount
    netAmount := platformFees.netAmount
    fees :=
      { platform := platformFees.platformFee
        processor := 0
        total := platformFees.totalFees }
    participants := { payer := payerId, payee := some payeeId }
    chaseWhiteRabbitNGO :=
      { donationPercentage := 5 / 1000
        donationAmount := platformFees.ngoContribution
        transparencyTracked := true }
    createdAt := now.time }

/-- `PaymentAutomationService.processJobCompletionPayment(jobId)`
(src/AutomationServer/Services/PaymentAutomation/PaymentService.js lines
9–89).  Guards: a missing or non-completed job throws (caught, reported as a
failure result); `job.paymentStatus === 'paid'` returns the
"Payment already processed" failure.  Otherwise the payment amount is
`(job.completionDetails?.actualHours || job.duration.estimatedHours) *
job.hourlyRate`, the transaction is saved, the job's payment status is set to
`'processing'` (not `'paid'`), the worker's earnings are updated with the net
amount and the same hours value, and the NGO contribution is tracked. -/
def processJobCompletionPayment (jobId : String) (txId : String) (now : Clock)
    (st : BillingState) : JobCompletionResult × BillingState :=
  match findJob jobId st.jobs with
  | none => ({ success := false, error := some "Job not found or not completed" }, st)
  | some job =>
    if job.status ≠ "completed" then
      ({ success := false, error := some "Job not found or not completed" }, st)
    else if job.paymentStatus = "paid" then
      ({ success := false, error := some "Payment already processed" }, st)
    else
      let hoursWorked := jsOrDefault job.actualHours job.estimatedHours
      let paymentAmount := hoursWorked * job.hourlyRate
      let platformFees := calculatePlatformFees paymentAmount .job_payment
      let transaction := jobPaymentTransaction job.postedBy job.assignedTo paymentAmount txId now
      let st1 := { st with transactions := st.transactions ++ [transaction] }
      let jobUpdated :=
        { job with
            paymentStatus := "processing"
            paymentDetails := some
              { transactionId := txId
                amount := paymentAmount
                netAmount := platformFees.netAmount
                platformFee := platformFees.platformFee
                ngoContribution := platformFees.ngoContribution
                processedAt := now.time } }
      let st2 := { st1 with jobs := saveJob jobUpdated st1.jobs }
      let (_earnRes, earnings) :=
        updateWorkerEarnings job.assignedTo
          { amount := platformFees.netAmount, hours := some hoursWorked } now st2.earnings
      let st3 := { st2 with earnings := earnings }
      let (_ngoRes, ledger) :=
        trackNGOContribution paymentAmount .job_payment txId now st3.ngoLedger
      let st4 := { st3 with ngoLedger := ledger }
      ({ success := true, transaction := some transaction, jobUpdated := some jobUpdated }, st4)

/-! ## Transparency reporting (`NGOTransparencyService`) -/

/-- One entry of the report's `monthlyBreakdown` (NGOTransparencyService.js
lines 42–51; the display-only `monthName` field is omitted). -/
structure MonthBucket where
  month : ℕ
  amount : ℚ
  transactions : ℕ
deriving DecidableEq, Repr

/-- One entry of the report's `quarterlyBreakdown`
(NGOTransparencyService.js lines 106–114). -/
structure QuarterBucket where
  quarter : String
  amount : ℚ
  transactions : ℕ
  months : List MonthBucket
deriving DecidableEq, Repr

/-- The report's `summary` object (NGOTransparencyService.js lines 67–72). -/
structure ReportSummary where
  totalContributions : ℚ
  totalTransactions : ℕ
  averageContribution : ℚ
  contributionRate : ℚ
deriving DecidableEq, Repr

/-- The report's `impactAllocation` object
(NGOTransparencyService.js lines 54–59). -/
structure ImpactAllocation where
  workerSafety : ℚ
  trainingPrograms : ℚ
  communitySupport : ℚ
  operations : ℚ
deriving DecidableEq, Repr

/-- `NGOTransparencyService.generateTransparencyReport(year)` restricted to
the computational fields (`sources`, the illustrative `impactMetrics` and the
static `transparency` block are presentation data not referenced by any
invariant). -/
structure TransparencyReport where
  year : ℕ
  summary : ReportSummary
  monthlyBreakdown : List MonthBucket
  quarterlyBreakdown : List QuarterBucket
  impactAllocation : ImpactAllocation
deriving DecidableEq, Repr

/-- `calculateQuarterlyBreakdown(monthlyData)`
(src/services/payment/NGOTransparencyService.js lines 98–115). -/
def calculateQuarterlyBreakdown (monthlyData : List MonthBucket) : List QuarterBucket :=
  let quarters : List (String × List ℕ) :=
    [("Q1", [1, 2, 3]), ("Q2", [4, 5, 6]), ("Q3", [7, 8, 9]), ("Q4", [10, 11, 12])]
  quarters.map (fun q =>
    let quarterData := monthlyData.filter (fun m => q.2.contains m.month)
    { quarter := q.1
      amount := (quarterData.map (fun m => m.amount)).sum
      transactions := (quarterData.map (fun m => m.transactions)).sum
      months := quarterData })

/-- `NGOTransparency.find({'period.year': year})` followed by the report
computation (src/services/payment/NGOTransparencyService.js lines 6–95):
total over all matching ledger records; `monthlyBreakdown` is
`Array.from({length: 12}, (_, i) => ...)` — always 12 buckets, month `i + 1`,
each summing the records whose `period.month` equals that month. -/
def generateTransparencyReport (year : ℕ) (ledger : List NGOTransparency) :
    TransparencyReport :=
  let contributions := ledger.filter (fun c => c.period.year = year)
  let totalContributions := (contributions.map (fun c => c.contribution.amount)).sum
  let totalTransactions := contributions.length
  let monthlyBreakdown := (List.range 12).map (fun i =>
    let month := i + 1
    let monthContributions := contributions.filter (fun c => c.period.month = month)
    { month := month
      amount := (monthContributions.map (fun c => c.contribution.amount)).sum
      transactions := monthContributions.length : MonthBucket })
  { year := year
    summary :=
      { totalContributions := totalContributions
        totalTransactions := totalTransactions
        averageContribution :=
          if totalTransactions > 0 then totalContributions / totalTransactions else 0
        contributionRate := 5 / 1000 }
    monthlyBreakdown := monthlyBreakdown
    quarterlyBreakdown := calculateQuarterlyBreakdown monthlyBreakdown
    impactAllocation :=
      { workerSafety := totalContributions * (4 / 10)
        trainingPrograms := totalContributions * (3 / 10)
        communitySupport := totalContributions * (2 / 10)
        operations := totalContributions * (1 / 10) } }

/-- The `validation` object returned by `validateContributions`
(NGOTransparencyService.js lines 324–335). -/
structure Validation where
  transactionCount : ℕ
  ngoRecordCount : ℕ
  totalTransactionContributions : ℚ
  totalNGORecordContributions : ℚ
  discrepancies : List String
  validationPassed : Bool
deriving DecidableEq, Repr

/-- `NGOTransparencyService.validateContributions(startDate, endDate)`
(src/services/payment/NGOTransparencyService.js lines 310–353): reads the
contribution-tracked transactions and the NGO records created in the range,
sums both sides, and flags a discrepancy when the totals differ by more than
0.01 or the counts differ.  It is a pure function of the two stores — the
embedding returns only the validation object and leaves both stores
untouched, exactly as the source performs only `find` queries. -/
def validateContributions (startDate endDate : ℤ)
    (transactionStore : List PaymentTransaction) (ngoStore : List NGOTransparency) :
    Validation :=
  let transactions := transactionStore.filter (fun t =>
    startDate ≤ t.createdAt ∧ t.createdAt ≤ endDate ∧
      t.chaseWhiteRabbitNGO.transparencyTracked = true)
  let ngoRecords := ngoStore.filter (fun r =>
    startDate ≤ r.createdAt ∧ r.createdAt ≤ endDate)
  let totalTransactionContributions : ℚ :=
    (transactions.map (fun t => t.chaseWhiteRabbitNGO.donationAmount)).sum
  let totalNGORecordContributions : ℚ :=
    (ngoRecords.map (fun r => r.contribution.amount)).sum
  let amountMismatch : Bool :=
    decide (|totalTransactionContributions - totalNGORecordContributions| > 1 / 100)
  let countMismatch : Bool := decide (transactions.length ≠ ngoRecords.length)
  { transactionCount := transactions.length
    ngoRecordCount := ngoRecords.length
    totalTransactionContributions := totalTransactionContributions
    totalNGORecordContributions := totalNGORecordContributions
    discrepancies :=
      (if amountMismatch then
        ["Contribution amounts do not match between transactions and NGO records"] else []) ++
      (if countMismatch then
        ["Transaction count does not match NGO record count"] else [])
    validationPassed := !amountMismatch && !countMismatch }

/-! ## Interleaving model for concurrent `updateWorkerEarnings` calls

`updateWorkerEarnings` is a read-modify-write: `findOne`, in-memory
mutation, `save()`.  Under concurrent execution the read and the write of two
calls can interleave.  Each in-flight call `i` is modelled by two atomic
events: `read i` takes the snapshot `findOne` returns, `write i` saves the
summary computed from call `i`'s snapshot. -/

/-- One atomic step of an in-flight `updateWorkerEarnings` call. -/
inductive REvent
  | read (i : ℕ)
  | write (i : ℕ)
deriving DecidableEq, Repr

/-- Shared store plus the per-call snapshots already taken. -/
structure ConcState where
  store : List EarningSummary
  locals : List (ℕ × EarningSummary)
deriving Repr

/-- Execute one event: `read i` performs call `i`'s
`findOne`-or-`new EarningSummary` phase, `write i` performs call `i`'s
mutation-and-`save()` phase on the snapshot it read. -/
def concStep (workerId : String) (jobPayment : JobPayment) (now : Clock)
    (s : ConcState) : REvent → ConcState
  | .read i =>
    { s with locals := s.locals ++ [(i, findOrCreateSummary workerId s.store)] }
  | .write i =>
    match s.locals.find? (fun p => p.1 = i) with
    | some p => { s with store := saveSummary (applyEarnings jobPayment now p.2) s.store }
    | none => s

/-- Run a schedule of events from an initial store. -/
def runSchedule (workerId : String) (jobPayment : JobPayment) (now : Clock)
    (events : List REvent) (store : List EarningSummary) : ConcState :=
  events.foldl (concStep workerId jobPayment now) { store := store, locals := [] }

/-- The schedule in which all `n` calls read before any call writes — a legal
interleaving of `n` concurrent calls. -/
def allReadsThenWrites (n : ℕ) : List REvent :=
  (List.range n).map REvent.read ++ (List.range n).map REvent.write

/-! ## Shared concrete inputs and helper lemmas -/

/-- A fixed wall-clock instant used by the concrete scenarios. -/
def clk0 : Clock := { year := 2024, month := 5, time := 0 }

/-- The end-to-end job of the spec's scenario: completed, not yet paid,
`hourlyRate = 40`, `estimatedHours = 10`, no `actualHours`. -/
def job0 : Job :=
  { id := "j", status := "completed", paymentStatus := "pending", hourlyRate := 40,
    estimatedHours := 10, actualHours := none, assignedTo := "w", postedBy := "e" }

/-- Initial billing state holding only `job0`. -/
def st0 : BillingState := { jobs := [job0] }

/-- Billing state holding `job0` and an arbitrary pre-existing earning summary
for the assigned worker. -/
def stWith (s : EarningSummary) : BillingState :=
  { jobs := [job0], earnings := [{ s with workerId := "w" }] }

/-- Pointwise sums split: summing `f + g` over a list equals the sum of `f`
plus the sum of `g`. -/
theorem sum_map_add {α : Type} (l : List α) (f g : α → ℚ) :
    (l.map (fun x => f x + g x)).sum = (l.map f).sum + (l.map g).sum := by
  induction l with
  | nil => simp
  | cons a t ih => simp [ih]; ring

/-- Summing an indicator of `m = i + 1` over months `i + 1` for
`i ∈ range 12` picks out exactly the one bucket `m` lands in, provided
`1 ≤ m ≤ 12`. -/
theorem sum_range_indicator (m : ℕ) (a : ℚ) (h1 : 1 ≤ m) (h2 : m ≤ 12) :
    ((List.range 12).map (fun i => if m = i + 1 then a else 0)).sum = a := by
  interval_cases m <;> simp [List.range_succ]

/-- The 12 month buckets partition a list of records whose months lie in
1..12: the bucket sums add up to the total. -/
theorem monthly_partition (l : List NGOTransparency)
    (h : ∀ c ∈ l, 1 ≤ c.period.month ∧ c.period.month ≤ 12) :
    ((List.range 12).map (fun i =>
        ((l.filter (fun c => c.period.month = i + 1)).map
          (fun c => c.contribution.amount)).sum)).sum
      = (l.map (fun c => c.contribution.amount)).sum := by
  induction l with
  | nil => simp
  | cons c t ih =>
    have hc := h c (List.mem_cons_self c t)
    have ht : ∀ x ∈ t, 1 ≤ x.period.month ∧ x.period.month ≤ 12 :=
      fun x hx => h x (List.mem_cons_of_mem c hx)
    have step : ∀ i : ℕ,
        ((((c :: t).filter (fun x => x.period.month = i + 1)).map
          (fun x => x.contribution.amount)).sum)
        = (if c.period.month = i + 1 then c.contribution.amount else 0) +
          ((t.filter (fun x => x.period.month = i + 1)).map
            (fun x => x.contribution.amount)).sum := by
      intro i
      by_cases hm : c.period.month = i + 1 <;> simp [List.filter_cons, hm]
    calc ((List.range 12).map (fun i =>
            (((c :: t).filter (fun x => x.period.month = i + 1)).map
              (fun x => x.contribution.amount)).sum)).sum
        = ((List.range 12).map (fun i =>
            (if c.period.month = i + 1 then c.contribution.amount else 0) +
            ((t.filter (fun x => x.period.month = i + 1)).map
              (fun x => x.contribution.amount)).sum)).sum := by
          simp only [step]
      _ = ((List.range 12).map (fun i =>
            if c.period.month = i + 1 then c.contribution.amount else 0)).sum +
          ((List.range 12).map (fun i =>
            ((t.filter (fun x => x.period.month = i + 1)).map
              (fun x => x.contribution.amount)).sum)).sum := by
          exact sum_map_add _ _ _
      _ = c.contribution.amount + (t.map (fun x => x.contribution.amount)).sum := by
          rw [sum_range_indicator _ _ hc.1 hc.2, ih ht]
      _ = ((c :: t).map (fun x => x.contribution.amount)).sum := by simp

/-! ## Claim theorems -/

/-- C1 (counterexample): the job-completion use case persists a transaction
whose `netAmount + fees.total + chaseWhiteRabbitNGO.donationAmount` is 402,
not the gross amount 400 — `fees.total` comes from
`calculatePlatformFees.totalFees`, which already contains the NGO donation,
so the donation is counted twice and the claimed identity fails. -/
theorem jobPayment_breaks_gross_decomposition :
    ((processJobCompletionPayment "j" "t1" clk0 st0).2.transactions.map
      (fun t => (t.netAmount + t.fees.total + t.chaseWhiteRabbitNGO.donationAmount, t.amount)))
      = [(402, 400)] ∧ ¬ ((402 : ℚ) = 400) := by
  constructor
  · norm_num [processJobCompletionPayment, st0, job0, clk0, findJob, saveJob, jsOrDefault,
      calculatePlatformFees, feeStructure, jobPaymentTransaction, updateWorkerEarnings,
      findOrCreateSummary, saveSummary, applyEarnings, jsTruthy, updateMonthly, updateYearly,
      trackNGOContribution, ngoSourceTypeAllowed, List.find?,
      show ¬("pending" : String) = "paid" from by decide]
  · norm_num

/-- C1 (amended): for each of the three billing use cases, the persisted
transaction satisfies `netAmount + fees.platform + donationAmount = amount`
exactly.  (The claimed identity with `fees.total` in place of `fees.platform`
holds only for recruitment fees, where `fees.total` excludes the donation,
and subscription renewals, where `fees` is left at its schema default 0.) -/
theorem net_platform_donation_decomposition
    (clientId payerId payeeId userId txId : String) (a : ℚ) (now : Clock) :
    ((recruitmentTransaction clientId a txId now).netAmount
      + (recruitmentTransaction clientId a txId now).fees.platform
      + (recruitmentTransaction clientId a txId now).chaseWhiteRabbitNGO.donationAmount = a) ∧
    ((jobPaymentTransaction payerId payeeId a txId now).netAmount
      + (jobPaymentTransaction payerId payeeId a txId now).fees.platform
      + (jobPaymentTransaction payerId payeeId a txId now).chaseWhiteRabbitNGO.donationAmount
        = a) ∧
    ((subscriptionRenewalTransaction userId a txId now).netAmount
      + (subscriptionRenewalTransaction userId a txId now).fees.platform
      + (subscriptionRenewalTransaction userId a txId now).chaseWhiteRabbitNGO.donationAmount
        = a) := by
  refine ⟨?_, ?_, ?_⟩ <;>
    norm_num [recruitmentTransaction, jobPaymentTransaction, subscriptionRenewalTransaction,
      calculatePlatformFees, feeStructure, jsOrDefault] <;> ring

/-- C2: `processRecruitmentFee` on amount 250 records platform fee
`250 * 0.03 = 7.50` — not the claimed 5% (`12.50`) — donation 1.25, net
241.25, the employer as payer and no payee: the use case hard-codes the 3%
rate instead of the 5% recruitment-fee rate of `calculatePlatformFees`. -/
theorem processRecruitmentFee_uses_three_percent_at_250 :
    ((processRecruitmentFee "employer" 250 "t1" clk0 {}).1.transaction.map
      (fun t => (t.fees.platform, t.chaseWhiteRabbitNGO.donationAmount, t.netAmount,
                 t.participants.payer, t.participants.payee)))
      = some (15 / 2, 5 / 4, 965 / 4, "employer", none) ∧
    ¬ ((15 : ℚ) / 2 = 250 * (5 / 100)) := by
  constructor
  · norm_num [processRecruitmentFee, recruitmentTransaction, clk0]
  · norm_num

/-- C3: the recruitment-fee use case persists a contribution-tracked
transaction but creates *zero* NGO ledger records: `trackNGOContribution`
saves with `sourceType = 'recruitment_fee'`, which the
`ngoTransparencySchema` enum rejects, so the ledger stays empty. -/
theorem recruitment_contribution_never_recorded :
    ((processRecruitmentFee "employer" 250 "t1" clk0 {}).2.transactions.map
      (fun t => t.chaseWhiteRabbitNGO.transparencyTracked)) = [true] ∧
    (processRecruitmentFee "employer" 250 "t1" clk0 {}).2.ngoLedger = [] := by
  refine ⟨rfl, ?_⟩
  simp [processRecruitmentFee, trackNGOContribution, ngoSourceTypeAllowed]

/-- C4: calling `processJobCompletionPayment` twice on the same completed job
succeeds *both* times and the worker's totals change twice (772 = 2 × 386,
2 jobs): the double-payment guard compares `paymentStatus` to `'paid'`, but
the pipeline sets `'processing'` and nothing ever sets `'paid'`. -/
theorem double_jobCompletionPayment_pays_twice :
    (processJobCompletionPayment "j" "t1" clk0 st0).1.success = true ∧
    (processJobCompletionPayment "j" "t2" clk0
        (processJobCompletionPayment "j" "t1" clk0 st0).2).1.success = true ∧
    (processJobCompletionPayment "j" "t2" clk0
        (processJobCompletionPayment "j" "t1" clk0 st0).2).1.error = none ∧
    ((processJobCompletionPayment "j" "t2" clk0
        (processJobCompletionPayment "j" "t1" clk0 st0).2).2.earnings.map
      (fun u => (u.summary.totalEarnings, u.summary.totalJobs))) = [(772, 2)] := by
  norm_num [processJobCompletionPayment, st0, job0, clk0, findJob, saveJob, jsOrDefault,
    calculatePlatformFees, feeStructure, jobPaymentTransaction, updateWorkerEarnings,
    findOrCreateSummary, saveSummary, applyEarnings, jsTruthy, updateMonthly, updateYearly,
    trackNGOContribution, ngoSourceTypeAllowed, List.find?,
    show ¬("pending" : String) = "paid" from by decide,
    show ¬("processing" : String) = "paid" from by decide]

/-- C5: `calculatePlatformFees` satisfies the sum identity
`platformFee + ngoContribution + netAmount = amount` for every amount and
kind, but the claimed 0% rates are false: `feeStructure` stores `0.0` for
`subscription` and `platform_fee`, `0.0` is falsy in JavaScript, so
`feeStructure[type] || 0.03` yields the 3% default for them (the 5%
recruitment rate and 3% job rate are truthy and survive). -/
theorem calculatePlatformFees_subscription_rate_not_zero :
    (∀ (a : ℚ) (k : TransactionType),
      (calculatePlatformFees a k).platformFee + (calculatePlatformFees a k).ngoContribution
        + (calculatePlatformFees a k).netAmount = a) ∧
    (calculatePlatformFees 100 .job_payment).platformFee = 3 ∧
    (calculatePlatformFees 100 .recruitment_fee).platformFee = 5 ∧
    (calculatePlatformFees 100 .subscription).platformFee = 3 ∧
    (calculatePlatformFees 100 .platform_fee).platformFee = 3 ∧
    (calculatePlatformFees 100 .refund).platformFee = 3 := by
  refine ⟨fun a k => ?_, ?_, ?_, ?_, ?_, ?_⟩
  · cases k <;> simp [calculatePlatformFees, jsOrDefault, feeStructure]
  all_goals norm_num [calculatePlatformFees, jsOrDefault, feeStructure]

/-- C6: 20 concurrent `updateWorkerEarnings` calls of amount 100 each,
interleaved so that every `findOne` runs before any `save` (a legal
interleaving of the unprotected read-modify-write), leave the worker's
summary at `totalEarnings = 100`, `totalJobs = 1` — 19 lost updates instead
of the claimed `100 × 20` and `20`. -/
theorem concurrent_updateWorkerEarnings_loses_updates :
    ((runSchedule "w" { amount := 100 } clk0 (allReadsThenWrites 20) []).store.map
      (fun u => (u.summary.totalEarnings, u.summary.totalJobs))) = [(100, 1)] ∧
    ¬ (((100 : ℚ), (1 : ℚ)) = (100 * 20, 20)) := by
  constructor
  · norm_num [runSchedule, allReadsThenWrites, concStep, findOrCreateSummary, saveSummary,
      applyEarnings, jsTruthy, updateMonthly, updateYearly, List.range_succ, List.find?]
  · norm_num

/-- C7: `validateContributions` passes with an empty discrepancy list exactly
when the summed donation amounts of the contribution-tracked transactions in
range and the summed ledger contribution amounts in range differ by at most
0.01 *and* the two record counts agree; the embedding is a pure function of
the two stores (the source performs only `find` queries), so it writes to
neither. -/
theorem validateContributions_passes_iff_match (startDate endDate : ℤ)
    (txStore : List PaymentTransaction) (ngoStore : List NGOTransparency) :
    ((validateContributions startDate endDate txStore ngoStore).validationPassed = true ∧
      (validateContributions startDate endDate txStore ngoStore).discrepancies = []) ↔
    (|(validateContributions startDate endDate txStore ngoStore).totalTransactionContributions
        - (validateContributions startDate endDate txStore ngoStore).totalNGORecordContributions|
          ≤ 1 / 100 ∧
      (validateContributions startDate endDate txStore ngoStore).transactionCount
        = (validateContributions startDate endDate txStore ngoStore).ngoRecordCount) := by
  simp only [validateContributions]
  by_cases h1 : |((txStore.filter (fun t =>
        startDate ≤ t.createdAt ∧ t.createdAt ≤ endDate ∧
          t.chaseWhiteRabbitNGO.transparencyTracked = true)).map
      (fun t => t.chaseWhiteRabbitNGO.donationAmount)).sum -
      ((ngoStore.filter (fun r => startDate ≤ r.createdAt ∧ r.createdAt ≤ endDate)).map
        (fun r => r.contribution.amount)).sum| > 1 / 100 <;>
    by_cases h2 : (txStore.filter (fun t =>
        startDate ≤ t.createdAt ∧ t.createdAt ≤ endDate ∧
          t.chaseWhiteRabbitNGO.transparencyTracked = true)).length
      = (ngoStore.filter (fun r => startDate ≤ r.createdAt ∧ r.createdAt ≤ endDate)).length <;>
    simp [h1, h2, not_lt.mp, le_of_not_lt]

/-- C8: the transparency report always has exactly 12 monthly buckets and 4
quarterly buckets, the quarterly amounts roll up to the same sum as the
monthly amounts, and — whenever every ledger record of the year carries a
month in 1..12, which is how both writers construct records —
`summary.totalContributions` equals the sum of the monthly bucket amounts. -/
theorem transparencyReport_totals_consistent (year : ℕ) (ledger : List NGOTransparency) :
    (generateTransparencyReport year ledger).monthlyBreakdown.length = 12 ∧
    (generateTransparencyReport year ledger).quarterlyBreakdown.length = 4 ∧
    (((generateTransparencyReport year ledger).quarterlyBreakdown.map
        (fun q => q.amount)).sum
      = ((generateTransparencyReport year ledger).monthlyBreakdown.map
        (fun m => m.amount)).sum) ∧
    ((∀ c ∈ ledger, c.period.year = year → 1 ≤ c.period.month ∧ c.period.month ≤ 12) →
      (generateTransparencyReport year ledger).summary.totalContributions
        = ((generateTransparencyReport year ledger).monthlyBreakdown.map
          (fun m => m.amount)).sum) := by
  refine ⟨?_, ?_, ?_, ?_⟩
  · simp [generateTransparencyReport]
  · simp [generateTransparencyReport, calculateQuarterlyBreakdown]
  · simp only [generateTransparencyReport, calculateQuarterlyBreakdown]
    simp [List.range_succ]
    ring
  · intro h
    simp only [generateTransparencyReport, List.map_map]
    rw [show ((fun m => MonthBucket.amount m) ∘ (fun i =>
      ({ month := i + 1,
         amount := (((ledger.filter (fun c => c.period.year = year)).filter
            (fun c => c.period.month = i + 1)).map (fun c => c.contribution.amount)).sum,
         transactions := ((ledger.filter (fun c => c.period.year = year)).filter
            (fun c => c.period.month = i + 1)).length } : MonthBucket)))
      = (fun i => (((ledger.filter (fun c => c.period.year = year)).filter
            (fun c => c.period.month = i + 1)).map (fun c => c.contribution.amount)).sum)
      from rfl]
    exact (monthly_partition _ (fun c hc => by
      have hmem := List.mem_filter.mp hc
      exact h c hmem.1 (by simpa using hmem.2))).symm

/-- C8 witness: a one-record ledger for May 2024 instantiates the report
theorem; the month hypothesis is discharged concretely. -/
theorem transparencyReport_totals_consistent_witness :
    (generateTransparencyReport 2024
        [{ transactionId := "t",
           period := { year := 2024, month := 5, quarter := 2 },
           contribution := { amount := 2, percentage := 1 / 2, sourceType := .job_payment },
           createdAt := 0 }]).summary.totalContributions
      = ((generateTransparencyReport 2024
          [{ transactionId := "t",
             period := { year := 2024, month := 5, quarter := 2 },
             contribution := { amount := 2, percentage := 1 / 2, sourceType := .job_payment },
             createdAt := 0 }]).monthlyBreakdown.map (fun m => m.amount)).sum :=
  (transparencyReport_totals_consistent 2024 _).2.2.2 (fun c hc _ => by
    simp only [List.mem_singleton] at hc
    subst hc
    exact ⟨by simp, by simp⟩)

/-- C9: end-to-end job completion — hourlyRate 40, estimatedHours 10, no
actualHours — yields a successful payment of gross 400, platform fee 12,
donation 2, net 386, and the worker's summary gains exactly 386 earnings and
1 job on top of any prior totals. -/
theorem jobCompletionPayment_end_to_end_400 (s : EarningSummary) :
    (processJobCompletionPayment "j" "t1" clk0 (stWith s)).1.success = true ∧
    ((processJobCompletionPayment "j" "t1" clk0 (stWith s)).2.transactions.map
      (fun t => (t.amount, t.fees.platform, t.chaseWhiteRabbitNGO.donationAmount, t.netAmount)))
      = [(400, 12, 2, 386)] ∧
    ((processJobCompletionPayment "j" "t1" clk0 (stWith s)).2.earnings.map
      (fun u => (u.summary.totalEarnings, u.summary.totalJobs)))
      = [(s.summary.totalEarnings + 386, s.summary.totalJobs + 1)] := by
  norm_num [processJobCompletionPayment, stWith, job0, clk0, findJob, saveJob, jsOrDefault,
    calculatePlatformFees, feeStructure, jobPaymentTransaction, updateWorkerEarnings,
    findOrCreateSummary, saveSummary, applyEarnings, jsTruthy, updateMonthly, updateYearly,
    trackNGOContribution, ngoSourceTypeAllowed, List.find?,
    show ¬("pending" : String) = "paid" from by decide]

/-- C10: for every input, `processRecruitmentFee` reports success with the
transaction persisted while the NGO ledger is left untouched, because
`trackNGOContribution` returns its failure as a result value
(`success = false`, never a thrown exception) and `processRecruitmentFee`
never inspects that result. -/
theorem processRecruitmentFee_ignores_ngo_failure
    (clientId txId : String) (amount : ℚ) (now : Clock) (st : BillingState) :
    (processRecruitmentFee clientId amount txId now st).1.success = true ∧
    (processRecruitmentFee clientId amount txId now st).2.transactions
      = st.transactions ++ [recruitmentTransaction clientId amount txId now] ∧
    (processRecruitmentFee clientId amount txId now st).2.ngoLedger = st.ngoLedger ∧
    (trackNGOContribution amount .recruitment_fee txId now st.ngoLedger).1.success = false := by
  refine ⟨rfl, rfl, ?_, rfl⟩
  simp [processRecruitmentFee, trackNGOContribution, ngoSourceTypeAllowed]

end RiggerBackend
